import Mathlib

/-!
Verification development for the-reef's gateway protocol client and
event-derived state reconciler.

The TypeScript sources are shallowly embedded:
  * `Js` models untyped JavaScript/JSON values flowing through the event
    pipeline (the source casts unchecked `unknown` payloads, so field access
    must be modelled dynamically).
  * `parseEventFrame`, `chatEventToAction`, `agentEventToAction`,
    `extractContent` follow src/src/main/event-parser.ts.
  * `parseGatewaySession` and the session sort follow
    src/src/renderer/gateway-utils.ts and src/src/renderer/App.tsx.
  * The `GatewayClient` state machine (connect guard, reconnect, request
    correlator, runId→sessionKey map) follows the protocol-v3 client class in
    src/unnamed/part_001 and the variant in src/src/main/gateway-client.ts.
  * Functions that can raise a TypeError in JS return `Except String`;
    `Date.now()` is passed in as an explicit `now` argument.
-/

namespace Reef

/-- Untyped JavaScript value, as seen by the event pipeline. -/
inductive Js where
  | undefined : Js
  | null : Js
  | bool : Bool → Js
  | num : Int → Js
  | str : String → Js
  | arr : List Js → Js
  | obj : List (String × Js) → Js
deriving Repr

/-- JS truthiness. -/
def Js.truthy : Js → Bool
  | .undefined => false
  | .null => false
  | .bool b => b
  | .num n => n != 0
  | .str s => s != ""
  | .arr _ => true
  | .obj _ => true

/-- Property access `v[k]` on a value that is not null/undefined: a missing
field, or a receiver that is a boxed primitive or an array, yields
`undefined`. -/
def Js.getF : Js → String → Js
  | .obj fs, k =>
    match fs.lookup k with
    | some v => v
    | none => .undefined
  | _, _ => .undefined

/-- Property access without a guard (the source writes `x.k`, no `?.`):
reading a property of `null`/`undefined` raises a TypeError. -/
def Js.getE : Js → String → Except String Js
  | .undefined, k => .error ("TypeError: cannot read " ++ k)
  | .null, k => .error ("TypeError: cannot read " ++ k)
  | v, k => .ok (v.getF k)

/-- `v === "lit"`: strict equality against a string literal. -/
def Js.isStr : Js → String → Bool
  | .str t, s => t == s
  | _, _ => false

/-- `typeof v === "string"`. -/
def Js.isStringTy : Js → Bool
  | .str _ => true
  | _ => false

/-- `typeof v === "number"`. -/
def Js.isNumTy : Js → Bool
  | .num _ => true
  | _ => false

/-- JS `a || b`: the first operand when truthy, otherwise the second. -/
def jsOr (a b : Js) : Js := if a.truthy then a else b

/-- One-level string coercion used for elements when an array is coerced. -/
def Js.toStrShallow : Js → String
  | .undefined => ""
  | .null => ""
  | .bool b => if b then "true" else "false"
  | .num n => toString n
  | .str s => s
  | .arr _ => ""
  | .obj _ => "[object Object]"

/-- String coercion of a JS value, as in template literals and `String(x)`.
Array rendering is modelled one level deep (no claim exercises coercion of
nested arrays). -/
def Js.toStr : Js → String
  | .undefined => "undefined"
  | .null => "null"
  | .bool b => if b then "true" else "false"
  | .num n => toString n
  | .str s => s
  | .arr xs => String.intercalate "," (xs.map Js.toStrShallow)
  | .obj _ => "[object Object]"

/-- `===` comparison of two JS primitive values, also the key equality of a
JS `Map` restricted to primitives; two separately constructed objects or
arrays are distinct references and never equal. -/
def Js.primEq : Js → Js → Bool
  | .undefined, .undefined => true
  | .null, .null => true
  | .bool a, .bool b => a == b
  | .num a, .num b => a == b
  | .str a, .str b => a == b
  | _, _ => false

-- ── Protocol model (src/src/main/protocol.ts) ────────────────────────────

/-- An incoming event frame (`EventFrame` in protocol.ts): the event name and
the untyped payload (`undefined` when the frame carries none). -/
structure EventFrame where
  event : String
  payload : Js
deriving Repr

/-- `MonitorAction['type']` in protocol.ts. -/
inductive ActionType where
  | start
  | streaming
  | complete
  | aborted
  | error
  | tool_call
  | tool_result
deriving Repr, DecidableEq

/-- `MonitorAction` in protocol.ts. Fields that the parser copies straight
out of the untyped payload stay `Js`; fields that are conditionally assigned
are `Option`. -/
structure MonitorAction where
  id : String
  runId : Js
  sessionKey : Js
  seq : Js
  type : ActionType
  eventType : String
  timestamp : Js
  content : Option Js := none
  toolName : Option String := none
  toolArgs : Option Js := none
  startedAt : Option Js := none
  endedAt : Option Js := none
  inputTokens : Option Js := none
  outputTokens : Option Js := none
  stopReason : Option Js := none
deriving Repr

/-- The session part of `ParsedEvent` in event-parser.ts. -/
structure ParsedSession where
  key : Js
  status : String
  lastActivityAt : Int
deriving Repr

/-- `ParsedEvent` in event-parser.ts. -/
structure ParsedEvent where
  session : Option ParsedSession
  action : Option MonitorAction
deriving Repr

-- ── Event normalizer (src/src/main/event-parser.ts) ──────────────────────

/-- Inner loop of `extractContent`: collect, in order, the `text` field of
every block whose `type` is `"text"` and whose `text` is a string. -/
def extractTexts : List Js → List String
  | [] => []
  | b :: rest =>
    match b with
    | .obj fs =>
      if (Js.obj fs).getF "type" |>.isStr "text" then
        match (Js.obj fs).getF "text" with
        | .str t => t :: extractTexts rest
        | _ => extractTexts rest
      else extractTexts rest
    | _ => extractTexts rest

/-- `extractContent` (event-parser.ts lines 166-184). -/
def extractContent (message : Js) : Option String :=
  match message with
  | .str s => some s
  | _ =>
    -- `typeof message !== 'object' || !message` → undefined
    if !(match message with | .arr _ => true | .obj _ => true | _ => false) then
      none
    else
      match message.getF "content" with
      | .arr blocks =>
        let texts := extractTexts blocks
        if texts.length > 0 then some (String.join texts) else none
      | .str c => some c
      | _ =>
        match message.getF "text" with
        | .str t => some t
        | _ => none

/-- `chatEventToAction` (event-parser.ts lines 84-119). `now` stands for
`Date.now()`. -/
def chatEventToAction (now : Int) (chat : Js) : MonitorAction :=
  let state := chat.getF "state"
  let ty : ActionType :=
    if state.isStr "final" then .complete
    else if state.isStr "aborted" then .aborted
    else if state.isStr "error" then .error
    else .streaming
  let runId := chat.getF "runId"
  let seq := chat.getF "seq"
  let base : MonitorAction :=
    { id := runId.toStr ++ "-" ++ seq.toStr
      runId := runId
      sessionKey := chat.getF "sessionKey"
      seq := seq
      type := ty
      eventType := "chat"
      timestamp := .num now }
  let a1 :=
    if state.isStr "final" then
      let usage := chat.getF "usage"
      let a :=
        if usage.truthy then
          { base with
            inputTokens := some (usage.getF "inputTokens")
            outputTokens := some (usage.getF "outputTokens") }
        else base
      if (chat.getF "stopReason").truthy then
        { a with stopReason := some (chat.getF "stopReason") }
      else a
    else base
  let a2 :=
    if (chat.getF "message").truthy then
      { a1 with content := (extractContent (chat.getF "message")).map Js.str }
    else a1
  if (chat.getF "errorMessage").truthy then
    { a2 with content := some (chat.getF "errorMessage") }
  else a2

/-- `agentEventToAction` (event-parser.ts lines 121-164). The lifecycle
branch reads `event.data.phase` without optional chaining, so a payload whose
`data` is null/undefined raises a TypeError there. -/
def agentEventToAction (agent : Js) : Except String MonitorAction :=
  let data := agent.getF "data"
  let stream := agent.getF "stream"
  let ts := agent.getF "ts"
  let mk : ActionType → Option String → Option String → Option Js →
      Option Js → Option Js → MonitorAction := fun ty content toolName toolArgs startedAt endedAt =>
    { id := (agent.getF "runId").toStr ++ "-" ++ (agent.getF "seq").toStr
      runId := agent.getF "runId"
      sessionKey := jsOr (agent.getF "sessionKey") stream
      seq := agent.getF "seq"
      type := ty
      eventType := "agent"
      timestamp := ts
      content := content.map Js.str
      toolName := toolName
      toolArgs := toolArgs
      startedAt := startedAt
      endedAt := endedAt }
  if stream.isStr "lifecycle" then
    match data.getE "phase" with
    | .error e => .error e
    | .ok phase =>
      if phase.isStr "start" then
        let sa := if (data.getF "startedAt").isNumTy then data.getF "startedAt" else ts
        .ok (mk .start none none none (some sa) none)
      else if phase.isStr "end" then
        let ea := if (data.getF "endedAt").isNumTy then data.getF "endedAt" else ts
        .ok (mk .complete none none none none (some ea))
      else
        .ok (mk .streaming none none none none none)
  else if (data.getF "type").isStr "tool_use" then
    let tn := (jsOr (data.getF "name") (.str "unknown")).toStr
    .ok (mk .tool_call (some ("Tool: " ++ tn)) (some tn) (some (data.getF "input")) none none)
  else if (data.getF "type").isStr "tool_result" then
    .ok (mk .tool_result (some (jsOr (data.getF "content") (.str "")).toStr) none none none none)
  else if (data.getF "type").isStr "text" || (data.getF "text").isStringTy then
    .ok (mk .streaming (some (jsOr (data.getF "text") (.str "")).toStr) none none none none)
  else
    .ok (mk .streaming none none none none none)

/-- `parseEventFrame` (event-parser.ts lines 21-82). `now` stands for
`Date.now()`. A TypeError escaping `agentEventToAction` propagates. -/
def parseEventFrame (now : Int) (frame : EventFrame) : Except String (Option ParsedEvent) :=
  -- Skip system/health events
  if frame.event == "health" || frame.event == "tick" || frame.event == "presence" then
    .ok none
  else if frame.event == "chat" && frame.payload.truthy then
    let chat := frame.payload
    .ok (some
      { action := some (chatEventToAction now chat)
        session := some
          { key := chat.getF "sessionKey"
            status := if (chat.getF "state").isStr "delta" then "thinking" else "active"
            lastActivityAt := now } })
  else if frame.event == "agent" && frame.payload.truthy then
    let agent := frame.payload
    let sessionFor : String → Option ParsedSession := fun status =>
      if (agent.getF "sessionKey").truthy then
        some { key := agent.getF "sessionKey", status := status, lastActivityAt := now }
      else none
    if (agent.getF "stream").isStr "lifecycle" then
      match agentEventToAction agent with
      | .error e => .error e
      | .ok a =>
        .ok (some
          { action := some a
            session := sessionFor
              (if ((agent.getF "data").getF "phase").isStr "start" then "thinking" else "active") })
    else if (agent.getF "stream").isStr "assistant" && ((agent.getF "data").getF "text").isStringTy then
      match agentEventToAction agent with
      | .error e => .error e
      | .ok a => .ok (some { action := some a, session := sessionFor "thinking" })
    else if ((agent.getF "data").getF "type").isStr "tool_use"
        || ((agent.getF "data").getF "type").isStr "tool_result" then
      match agentEventToAction agent with
      | .error e => .error e
      | .ok a => .ok (some { action := some a, session := sessionFor "thinking" })
    else
      .ok none
  else
    .ok none

-- ── State reconciler: action collection (modelled from the spec) ─────────

/-- Is the action a tool record? Tool records live under their own key. -/
def isToolType : ActionType → Bool
  | .tool_call => true
  | .tool_result => true
  | _ => false

/-- Modelled from the spec: the State Reconciler's action collection and its
apply step are not under src/ (src/ contains only the normalizer and the
`MonitorAction` type; the part_001 client declares an unused
`actions : Map<string, MonitorAction>`). Per §3/§4.6 of the spec, all
non-tool states for a given runId share exactly one Action record keyed by
runId, while tool_call/tool_result records are keyed by runId+sequence. -/
def actionKey (a : MonitorAction) : String :=
  if isToolType a.type then a.runId.toStr ++ "#" ++ a.seq.toStr else a.runId.toStr

/-- Insertion-ordered map update (JS `Map.set` semantics). -/
def mapSetStr (m : List (String × MonitorAction)) (k : String) (v : MonitorAction) :
    List (String × MonitorAction) :=
  match m with
  | [] => [(k, v)]
  | (k', v') :: rest => if k' == k then (k, v) :: rest else (k', v') :: mapSetStr rest k v

/-- Modelled from the spec: applying one normalized action to the collection
updates the record at its key in place (created on first event for the key). -/
def applyAction (coll : List (String × MonitorAction)) (a : MonitorAction) :
    List (String × MonitorAction) :=
  mapSetStr coll (actionKey a) a

/-- Modelled from the spec: applying a normalizer output to the collection;
"no update" and parse failures leave the collection unchanged. -/
def applyParsed (coll : List (String × MonitorAction)) :
    Except String (Option ParsedEvent) → List (String × MonitorAction)
  | .ok (some pe) =>
    match pe.action with
    | some a => applyAction coll a
    | none => coll
  | _ => coll

/-- Feed a sequence of raw frames through the normalizer into the collection,
in arrival order. -/
def reconcileFrames (now : Int) (coll : List (String × MonitorAction))
    (frames : List EventFrame) : List (String × MonitorAction) :=
  frames.foldl (fun c f => applyParsed c (parseEventFrame now f)) coll

-- ── runId → sessionKey map (src/unnamed/part_001 lines 300-303, 429-447) ──

/-- JS `Map.set` on the runId→sessionKey map: keys compare by `===`
(primitive equality); an existing binding is overwritten in place. -/
def mapSetJs (m : List (Js × Js)) (k v : Js) : List (Js × Js) :=
  match m with
  | [] => [(k, v)]
  | (k', v') :: rest => if k'.primEq k then (k, v) :: rest else (k', v') :: mapSetJs rest k v

/-- JS `Map.get`. -/
def mapGetJs (m : List (Js × Js)) (k : Js) : Option Js :=
  match m with
  | [] => none
  | (k', v') :: rest => if k'.primEq k then some v' else mapGetJs rest k

/-- The learning part of `GatewayClient.handleEvent` (part_001 lines
429-442): record runId→sessionKey whenever a chat or agent event carries
both (truthy) fields. -/
def handleEventLearn (m : List (Js × Js)) (frame : EventFrame) : List (Js × Js) :=
  let m1 :=
    if frame.event == "chat" && frame.payload.truthy
        && (frame.payload.getF "runId").truthy && (frame.payload.getF "sessionKey").truthy then
      mapSetJs m (frame.payload.getF "runId") (frame.payload.getF "sessionKey")
    else m
  if frame.event == "agent" && frame.payload.truthy
      && (frame.payload.getF "runId").truthy && (frame.payload.getF "sessionKey").truthy then
    mapSetJs m1 (frame.payload.getF "runId") (frame.payload.getF "sessionKey")
  else m1

/-- `GatewayClient.resolveSessionKey` (part_001 lines 517-519). -/
def resolveSessionKey (m : List (Js × Js)) (runId : String) : Option Js :=
  mapGetJs m (.str runId)

-- ── Renderer session parsing (src/src/renderer/gateway-utils.ts) ─────────

/-- The fields of a raw `sessions.list` record that gateway-utils.ts reads.
`abortedLastRun` is the truthiness of the raw flag. -/
structure RawSession where
  key : Option String := none
  updatedAt : Option Int := none
  abortedLastRun : Bool := false
  outputTokens : Option Int := none
  inputTokens : Option Int := none
  cacheReadTokens : Option Int := none
  cacheWriteTokens : Option Int := none
  totalTokens : Option Int := none
  model : Option String := none
  channel : Option String := none
  lastChannel : Option String := none
  cost : Option Int := none
  label : Option String := none
  subject : Option String := none
  displayName : Option String := none
deriving Repr, DecidableEq

/-- `tokenUsage` of `SessionInfo` (renderer types). -/
structure TokenUsage where
  input : Int
  output : Int
  cacheRead : Int
  cacheWrite : Int
deriving Repr, DecidableEq

/-- `SessionInfo` (renderer types). `startedAt` (a display-only ISO string)
is omitted from the embedding. -/
structure SessionInfo where
  id : String
  key : String
  agent : String
  emoji : String
  status : String
  model : Option String
  channel : Option String
  cost : Int
  tokenUsage : TokenUsage
  totalTokens : Int
  parentSession : Option String
  subagents : List String
  label : Option String
  subject : Option String
  displayName : Option String
  updatedAt : Option Int
deriving Repr, DecidableEq

/-- `AGENT_EMOJIS` (gateway-utils.ts lines 4-22). -/
def agentEmojis : List (String × String) :=
  [("kev", "😎"), ("rex-claude", "🦖"), ("rex-codex", "🦕"), ("scout", "🔍"),
   ("pixel", "🎨"), ("hawk", "🦅"), ("atlas", "🗺️"), ("sentinel", "🛡️"),
   ("ally", "🤝"), ("blaze", "🔥"), ("chase", "🏃"), ("dash", "⚡"),
   ("dot", "•"), ("echo", "📡"), ("finn", "🐟"), ("forge", "🔨"), ("law", "⚖️")]

/-- `inferParent` (gateway-utils.ts lines 73-77): always undefined. -/
def inferParent (_key : String) (_parts : List String) : Option String := none

/-- `parseGatewaySession` (gateway-utils.ts lines 24-71; the same status
derivation appears in src/unnamed/part_011 lines 44-57). `now` stands for
`Date.now()`. -/
def parseGatewaySession (now : Int) (raw : RawSession) : SessionInfo :=
  let key := (raw.key.getD "")
  let parts := key.splitOn ":"
  let agent := let a := parts.getD 1 ""; if a == "" then "unknown" else a
  let isSubagent := 0 < (key.splitOn "subagent").length - 1
  -- Determine status from recent activity
  let updatedAt := raw.updatedAt.getD 0
  let ageMs := now - updatedAt
  let status : String :=
    if raw.abortedLastRun then "error"
    else if ageMs < 60000 && (match raw.outputTokens with | some n => n > 0 | none => false) then
      "working"
    else if ageMs < 300000 then "idle"
    else "stopped"
  { id := key
    key := key
    agent := agent
    emoji := (agentEmojis.lookup agent).getD "🤖"
    status := status
    model := raw.model
    channel := match raw.channel with | some c => some c | none => raw.lastChannel
    cost := raw.cost.getD 0
    tokenUsage :=
      { input := raw.inputTokens.getD 0
        output := raw.outputTokens.getD 0
        cacheRead := raw.cacheReadTokens.getD 0
        cacheWrite := raw.cacheWriteTokens.getD 0 }
    totalTokens := raw.totalTokens.getD 0
    parentSession := if isSubagent then inferParent key parts else none
    subagents := []
    label := raw.label
    subject := raw.subject
    displayName := raw.displayName
    updatedAt := raw.updatedAt }

/-- The sort applied to every externally exposed session list in App.tsx
(lines 84 and 121): `sessions.sort((a, b) => (b.updatedAt || 0) - (a.updatedAt || 0))`,
i.e. by `updatedAt` descending. JS `Array.prototype.sort` is stable. -/
def sortSessions (l : List SessionInfo) : List SessionInfo :=
  l.mergeSort (fun a b => (b.updatedAt.getD 0) - (a.updatedAt.getD 0) ≤ 0)

/-- The renderer pipeline feeding positional layout (App.tsx
`refreshSessions` lines 78-89 and the `onSessionsData` handler lines
119-124): parse every raw record, then sort. -/
def refreshSessionsPipeline (now : Int) (raws : List RawSession) : List SessionInfo :=
  sortSessions (raws.map (parseGatewaySession now))

-- ── GatewayClient state machine (src/unnamed/part_001, protocol-v3 class) ─

/-- WebSocket readyState. -/
inductive WsState where
  | connectingWS
  | openWS
  | closingWS
  | closedWS
deriving Repr, DecidableEq

/-- `server` field of `HelloOk` (protocol.ts lines 55-65). -/
structure ServerInfo where
  version : String
  host : String
  connId : String
deriving Repr, DecidableEq

/-- `HelloOk` (protocol.ts). The `snapshot` and `features` payloads are kept
as raw values; a genuine hello-ok carries all three fields, while the cast
`{ type: 'hello-ok', protocol: 3 } as HelloOk` leaves them undefined. -/
structure HelloOk where
  type : String
  protocol : Int
  server : Option ServerInfo
  snapshot : Option Js
  features : Option Js
deriving Repr

/-- Mutable state of the part_001 protocol-v3 `GatewayClient` (fields of the
class, lines 291-303), plus instrumentation: `socketsOpened` counts
`new WebSocket(url)` calls, `sent` logs frames written to the socket,
`statusLog` logs `emitStatus` calls. -/
structure ClientState where
  ws : Option WsState
  requestId : Nat
  pending : List (String × String)
  connectedF : Bool
  connectingF : Bool
  reconnectTimer : Bool
  runSessionMap : List (Js × Js)
  socketsOpened : Nat
  sent : List String
  statusLog : List String
deriving Repr

/-- The value `{ type: 'hello-ok', protocol: 3 } as HelloOk` returned by
`connect()` when already connecting or connected (part_001 lines 313-315). -/
def earlyConnectReturn : HelloOk :=
  { type := "hello-ok", protocol := 3, server := none, snapshot := none, features := none }

/-- The synchronous prefix of `connect()` (part_001 lines 312-336): the
guard, the `connecting` transition, and the socket construction. The
eventual handshake result is delivered asynchronously and is not part of
this step. -/
def connectBegin (s : ClientState) : ClientState × Option HelloOk :=
  if s.connectingF || s.connectedF then
    (s, some earlyConnectReturn)
  else
    let s1 := { s with connectingF := true, statusLog := s.statusLog ++ ["connecting"] }
    ({ s1 with ws := some .connectingWS, socketsOpened := s1.socketsOpened + 1 }, none)

/-- `scheduleReconnect` (part_001 lines 449-455): schedule once. -/
def scheduleReconnect (s : ClientState) : ClientState :=
  if s.reconnectTimer then s else { s with reconnectTimer := true }

/-- The socket `close` handler (part_001 lines 380-390). -/
def onClose (s : ClientState) (code : Int) : ClientState :=
  let wasConnected := s.connectedF
  let s1 := { s with connectedF := false, connectingF := false,
                     statusLog := s.statusLog ++ ["disconnected"] }
  if wasConnected && code != 1000 then scheduleReconnect s1 else s1

/-- The reconnect timer firing (part_001 lines 451-454): clear the timer and
call `connect()` again. -/
def reconnectFire (s : ClientState) : ClientState × Option HelloOk :=
  connectBegin { s with reconnectTimer := false }

/-- The synchronous part of `request()` (part_001 lines 459-471): the
not-connected guard, id allocation, pending-map insertion and the send. -/
def requestBegin (s : ClientState) (method : String) : ClientState × Except String String :=
  match s.ws with
  | some .openWS =>
    let id := s.requestId + 1
    let idStr := "req-" ++ toString id
    ({ s with
        requestId := id
        pending := s.pending ++ [(idStr, method)]
        sent := s.sent ++ [idStr ++ ":" ++ method] },
      .ok idStr)
  | _ => (s, .error "Not connected")

/-- The per-request timeout timer firing (part_001 lines 472-477): if the id
is still pending, delete it and reject with a timeout error. -/
def timeoutFire (s : ClientState) (id : String) : ClientState × Option String :=
  match s.pending.lookup id with
  | some m =>
    ({ s with pending := s.pending.filter (fun p => !(p.1 == id)) },
      some ("Request " ++ m ++ " timed out"))
  | none => (s, none)

/-- `disconnect()` (part_001 lines 523-533). -/
def disconnectClient (s : ClientState) : ClientState :=
  let s1 := if s.reconnectTimer then { s with reconnectTimer := false } else s
  { s1 with ws := none, connectedF := false, connectingF := false,
            statusLog := s1.statusLog ++ ["disconnected"] }

-- ── The src/src/main/gateway-client.ts variant ───────────────────────────

/-- Mutable state of the `GatewayClient` in src/src/main/gateway-client.ts
(fields at lines 58-65). -/
structure MainClientState where
  ws : Option WsState
  connected : Bool
  requestId : Nat
  pending : List (Nat × String)
  sent : List String
deriving Repr

/-- The synchronous part of `request()` in src/src/main/gateway-client.ts
(lines 184-199): guard on `!this.ws || !this.connected`, then allocate a
numeric id and send. -/
def requestBeginMain (s : MainClientState) (method : String) :
    MainClientState × Except String Nat :=
  if s.ws.isNone || !s.connected then
    (s, .error "Not connected")
  else
    let id := s.requestId + 1
    ({ s with
        requestId := id
        pending := s.pending ++ [(id, method)]
        sent := s.sent ++ ["r" ++ toString id ++ ":" ++ method] },
      .ok id)

-- ── Event dispatch ───────────────────────────────────────────────────────

/-- Listener fan-out of `handleEvent` in the part_001 protocol-v3 client
(lines 444-447): `for (const listener of ...) { try { listener(event) } catch {} }`.
A listener is its index into the registration list; `beh` gives each
listener's behavior on the event. Returns the listeners invoked, in order. -/
def dispatchIsolated (beh : Nat → EventFrame → Except String Unit) :
    List Nat → EventFrame → List Nat
  | [], _ => []
  | l :: rest, e =>
    match beh l e with
    | .ok _ => l :: dispatchIsolated beh rest e
    | .error _ => l :: dispatchIsolated beh rest e

/-- Listener fan-out of `handleRawMessage` in src/src/main/gateway-client.ts
(lines 158-182): `for (const cb of this.eventListeners) cb(msg);` runs inside
the handler's single outer `try`/`catch`, so the first listener that throws
aborts delivery to the rest (the dispatcher itself survives). Returns the
listeners invoked, in order. -/
def dispatchOuterCatch (beh : Nat → EventFrame → Except String Unit) :
    List Nat → EventFrame → List Nat
  | [], _ => []
  | l :: rest, e =>
    match beh l e with
    | .ok _ => l :: dispatchOuterCatch beh rest e
    | .error _ => [l]

-- ── Bounded exec output retention (modelled from the spec) ───────────────

/-- Modelled from the spec: the streamed-chunk retention logic (§4.6
"Bounded output retention") is not under src/; src/docs/research documents
the reference constants (per-chunk 4000 chars, 200 chunks, 50000 chars
total, oldest dropped first, truncation marked). One retained chunk: the
kept text (modelled as its character list, since the caps are character
counts) and the truncation mark. -/
structure ExecChunk where
  text : List Char
  truncated : Bool
deriving Repr, DecidableEq

/-- Modelled from the spec: the three retention limits. -/
structure ExecConfig where
  maxChunkChars : Nat
  maxChunks : Nat
  maxTotalChars : Nat
deriving Repr, DecidableEq

/-- Modelled from the spec: tracked output of one process. `droppedChunks`
is the consumer-observable count of dropped chunks. -/
structure ExecProc where
  chunks : List ExecChunk
  droppedChunks : Nat
deriving Repr, DecidableEq

def emptyProc : ExecProc := { chunks := [], droppedChunks := 0 }

/-- Modelled from the spec: per-chunk character cap — truncate the tail and
mark the chunk truncated. -/
def truncateChunk (cfg : ExecConfig) (s : List Char) : ExecChunk :=
  if s.length > cfg.maxChunkChars then ⟨s.take cfg.maxChunkChars, true⟩ else ⟨s, false⟩

def totalChars (l : List ExecChunk) : Nat :=
  (l.map (fun c => c.text.length)).sum

/-- Modelled from the spec: drop oldest chunks until the aggregate character
total is within budget. -/
def dropWhileOver (budget : Nat) : List ExecChunk → List ExecChunk
  | [] => []
  | c :: rest =>
    if totalChars (c :: rest) ≤ budget then c :: rest else dropWhileOver budget rest

/-- Modelled from the spec: ingest one raw chunk — truncate it, append it,
drop oldest beyond the chunk-count cap, then drop oldest until the character
budget holds. -/
def addChunk (cfg : ExecConfig) (p : ExecProc) (raw : List Char) : ExecProc :=
  let c := truncateChunk cfg raw
  let appended := p.chunks ++ [c]
  let capped :=
    if appended.length > cfg.maxChunks then appended.drop (appended.length - cfg.maxChunks)
    else appended
  let final := dropWhileOver cfg.maxTotalChars capped
  { chunks := final, droppedChunks := p.droppedChunks + (appended.length - final.length) }

/-- Feed a list of raw chunks in order. -/
def feedChunks (cfg : ExecConfig) (p : ExecProc) (raws : List (List Char)) : ExecProc :=
  raws.foldl (addChunk cfg) p

-- ── Concrete fixtures used by the claim theorems ─────────────────────────

/-- A well-formed chat event payload with a plain string message. -/
def chatPayload (rid sk : String) (seq : Int) (state msg : String) : Js :=
  .obj [("runId", .str rid), ("sessionKey", .str sk), ("seq", .num seq),
        ("state", .str state), ("message", .str msg)]

/-- The chat event frame around `chatPayload`. -/
def chatFrame (rid sk : String) (seq : Int) (state msg : String) : EventFrame :=
  { event := "chat", payload := chatPayload rid sk seq state msg }

/-- An agent lifecycle event frame whose payload has no `data` field. -/
def lifecycleNoDataFrame : EventFrame :=
  { event := "agent",
    payload := .obj [("runId", .str "r1"), ("seq", .num 1), ("ts", .num 0),
                     ("stream", .str "lifecycle")] }

/-- An agent lifecycle event frame that omits `sessionKey`. -/
def agentNoKeyFrame : EventFrame :=
  { event := "agent",
    payload := .obj [("runId", .str "r1"), ("seq", .num 2), ("ts", .num 10),
                     ("stream", .str "lifecycle"),
                     ("data", .obj [("phase", .str "start")])] }

/-- An agent lifecycle event frame carrying both runId and sessionKey. -/
def agentKeyedFrame (rid sk : String) (seq : Int) : EventFrame :=
  { event := "agent",
    payload := .obj [("runId", .str rid), ("sessionKey", .str sk), ("seq", .num seq),
                     ("ts", .num 0), ("stream", .str "lifecycle"),
                     ("data", .obj [("phase", .str "start")])] }

/-- The cold-start status rule as amended: the abort flag forces "error"
unconditionally; otherwise "working" when the last update is under a minute
old and the listing's raw output-token count is positive; otherwise "idle"
when under five minutes; otherwise "stopped". -/
def coldStartStatusAmended (now : Int) (updatedAt : Option Int) (aborted : Bool)
    (outputTokens : Option Int) : String :=
  let age := now - updatedAt.getD 0
  if aborted then "error"
  else if age < 60 * 1000 ∧ 0 < outputTokens.getD 0 then "working"
  else if age < 5 * 60 * 1000 then "idle"
  else "stopped"

/-- The cold-start status rule exactly as the claim states it: "working"
additionally requires the output tokens to have advanced since the previous
observation. -/
def coldStartStatusClaimed (now updatedAt : Int) (aborted : Bool)
    (outputTokens prevOutputTokens : Int) : String :=
  if aborted then "error"
  else if now - updatedAt < 60 * 1000 ∧ prevOutputTokens < outputTokens then "working"
  else if now - updatedAt < 5 * 60 * 1000 then "idle"
  else "stopped"

/-- A session listing record whose output-token count is positive but did
not advance between observations. -/
def rawSteady : RawSession :=
  { key := some "agent:kev:telegram:dm:42", updatedAt := some 70000, outputTokens := some 5 }

/-- A session last updated at t=1000, key lexicographically first. -/
def rawAlpha : RawSession :=
  { key := some "agent:alpha:telegram:dm:1", updatedAt := some 1000 }

/-- A session last updated at t=2000, key lexicographically second. -/
def rawBeta : RawSession :=
  { key := some "agent:beta:telegram:dm:2", updatedAt := some 2000 }

/-- A genuine handshake result, as §3 of the spec shapes `HelloOk`. -/
def fullHandshake : HelloOk :=
  { type := "hello-ok", protocol := 3,
    server := some { version := "1.0.0", host := "localhost", connId := "c1" },
    snapshot := some (.obj []), features := some (.obj []) }

/-- A connected, idle client. -/
def connectedState : ClientState :=
  { ws := some .openWS, requestId := 5, pending := [], connectedF := true,
    connectingF := false, reconnectTimer := false, runSessionMap := [],
    socketsOpened := 1, sent := [], statusLog := [] }

/-- A connected client with one request in flight. -/
def pendingState : ClientState :=
  { ws := some .openWS, requestId := 5, pending := [("req-5", "sessions.list")],
    connectedF := true, connectingF := false, reconnectTimer := false,
    runSessionMap := [], socketsOpened := 1, sent := [], statusLog := [] }

/-- Listener behavior where the first registered listener throws. -/
def firstListenerThrows : Nat → EventFrame → Except String Unit :=
  fun l _ => if l == 0 then .error "listener boom" else .ok ()

/-- A small retention configuration: 4 chars per chunk, 2 chunks, 8 chars. -/
def execCfgW : ExecConfig := { maxChunkChars := 4, maxChunks := 2, maxTotalChars := 8 }

/-- Four raw chunks, the first over the per-chunk cap. -/
def execRawsW : List (List Char) :=
  ["aaaaaa".toList, "bb".toList, "cc".toList, "dd".toList]

end Reef

namespace Reef

-- ═════════════════════════════  Theorems  ═══════════════════════════════

-- C1 ─────────────────────────────────────────────────────────────────────

/-- C1: for a sequence of chat events sharing one runId that arrives with
states [delta, delta, final], normalizing each event and applying it to the
action collection yields exactly one Action record for that runId — all
non-tool lifecycle states update the single record keyed by runId — and the
surviving record is the normalization of the last event: its type is
`complete` and its content is the final message. (The collection apply step
is modelled from the spec; the normalizer is the one from src/.) -/
theorem chat_run_single_action_record (now : Int) (rid sk : String) (s1 s2 s3 : Int)
    (m1 m2 m3 : String) (hm3 : m3 ≠ "") :
    reconcileFrames now []
      [chatFrame rid sk s1 "delta" m1, chatFrame rid sk s2 "delta" m2,
       chatFrame rid sk s3 "final" m3]
      = [(rid, chatEventToAction now (chatPayload rid sk s3 "final" m3))]
    ∧ (chatEventToAction now (chatPayload rid sk s3 "final" m3)).type = .complete
    ∧ (chatEventToAction now (chatPayload rid sk s3 "final" m3)).content = some (.str m3)
    ∧ (chatEventToAction now (chatPayload rid sk s3 "final" m3)).runId = .str rid := by
  rcases eq_or_ne m1 "" with h1 | h1 <;> rcases eq_or_ne m2 "" with h2 | h2 <;>
    simp [reconcileFrames, applyParsed, parseEventFrame, chatEventToAction, chatPayload,
          chatFrame, applyAction, actionKey, mapSetStr, isToolType, Js.getF, Js.isStr,
          Js.truthy, Js.toStr, extractContent, jsOr, List.lookup, hm3, h1, h2]

/-- Witness for `chat_run_single_action_record` at a concrete run. -/
theorem chat_run_single_action_record_witness :
    ("Hello" : String) ≠ ""
    ∧ (reconcileFrames 7 []
        [chatFrame "r1" "agent:kev:telegram:dm:42" 1 "delta" "He",
         chatFrame "r1" "agent:kev:telegram:dm:42" 2 "delta" "Hell",
         chatFrame "r1" "agent:kev:telegram:dm:42" 3 "final" "Hello"]
        = [("r1", chatEventToAction 7 (chatPayload "r1" "agent:kev:telegram:dm:42" 3 "final" "Hello"))]
      ∧ (chatEventToAction 7 (chatPayload "r1" "agent:kev:telegram:dm:42" 3 "final" "Hello")).type = .complete
      ∧ (chatEventToAction 7 (chatPayload "r1" "agent:kev:telegram:dm:42" 3 "final" "Hello")).content
          = some (.str "Hello")
      ∧ (chatEventToAction 7 (chatPayload "r1" "agent:kev:telegram:dm:42" 3 "final" "Hello")).runId
          = .str "r1") :=
  ⟨by decide,
   chat_run_single_action_record 7 "r1" "agent:kev:telegram:dm:42" 1 2 3 "He" "Hell" "Hello"
     (by decide)⟩

-- C2 ─────────────────────────────────────────────────────────────────────

/-- C2 counterexample: the claim says `parseEventFrame` never throws for any
input frame, yet an agent lifecycle payload carrying no `data` object makes
the unguarded `event.data.phase` read raise a TypeError. -/
theorem parseEventFrame_throws_on_lifecycle_without_data :
    parseEventFrame 0 lifecycleNoDataFrame = .error "TypeError: cannot read phase" := by
  rfl

/-- C2 (amended): `parseEventFrame` is pure; system events ("health",
"tick", "presence") yield no update, as does any frame whose event is
neither "chat" nor "agent", any chat or agent frame with a falsy payload,
and any agent payload of unrecognized shape. But it is not total: an agent
lifecycle payload whose `data` is missing raises a TypeError, and a chat
frame with any truthy payload — however malformed — yields an update rather
than no update. -/
theorem parseEventFrame_amended :
    (∀ (now : Int) (p : Js),
        parseEventFrame now { event := "health", payload := p } = .ok none
      ∧ parseEventFrame now { event := "tick", payload := p } = .ok none
      ∧ parseEventFrame now { event := "presence", payload := p } = .ok none)
    ∧ (∀ (now : Int) (f : EventFrame), f.event ≠ "chat" → f.event ≠ "agent" →
        parseEventFrame now f = .ok none)
    ∧ (∀ (now : Int) (p : Js), p.truthy = false →
        parseEventFrame now { event := "chat", payload := p } = .ok none
      ∧ parseEventFrame now { event := "agent", payload := p } = .ok none)
    ∧ (∀ (now : Int) (p : Js), p.truthy = true →
        (p.getF "stream").isStr "lifecycle" = false →
        ((p.getF "stream").isStr "assistant" && ((p.getF "data").getF "text").isStringTy) = false →
        ((p.getF "data").getF "type").isStr "tool_use" = false →
        ((p.getF "data").getF "type").isStr "tool_result" = false →
        parseEventFrame now { event := "agent", payload := p } = .ok none)
    ∧ parseEventFrame 0 lifecycleNoDataFrame = .error "TypeError: cannot read phase"
    ∧ (∃ pe, parseEventFrame 0 { event := "chat", payload := .obj [("foo", .num 1)] }
        = .ok (some pe)) := by
  refine ⟨fun now p => ⟨rfl, rfl, rfl⟩, ?_, ?_, ?_, rfl, ⟨_, rfl⟩⟩
  · intro now f h1 h2
    simp [parseEventFrame, h1, h2]
  · intro now p h
    constructor <;> simp [parseEventFrame, h]
  · intro now p ht h1 h2 h3 h4
    simp [parseEventFrame, ht, h1, h2, h3, h4]

/-- Witness for `parseEventFrame_amended` at concrete frames. -/
theorem parseEventFrame_amended_witness :
    parseEventFrame 0 { event := "exec.started", payload := .null } = .ok none
    ∧ parseEventFrame 0 { event := "chat", payload := .undefined } = .ok none
    ∧ parseEventFrame 0 { event := "agent", payload := .obj [("stream", .str "weird")] }
        = .ok none :=
  ⟨parseEventFrame_amended.2.1 0 { event := "exec.started", payload := .null }
      (by decide) (by decide),
   (parseEventFrame_amended.2.2.1 0 .undefined rfl).1,
   parseEventFrame_amended.2.2.2.1 0 (.obj [("stream", .str "weird")]) rfl rfl rfl rfl rfl⟩

-- C3 ─────────────────────────────────────────────────────────────────────

/-- Primitive `===` equality implies value equality. -/
theorem Js.eq_of_primEq {a b : Js} (h : a.primEq b = true) : a = b := by
  cases a <;> cases b <;> simp [Js.primEq] at h <;> simp [h]

/-- `Map.get` after `Map.set` of a primitive key finds the new value. -/
theorem mapGetJs_mapSetJs_self (m : List (Js × Js)) (k v : Js)
    (hk : k.primEq k = true) : mapGetJs (mapSetJs m k v) k = some v := by
  induction m with
  | nil => simp [mapSetJs, mapGetJs, hk]
  | cons p rest ih =>
    rcases p with ⟨k', v'⟩
    by_cases h : k'.primEq k = true
    · simp [mapSetJs, mapGetJs, h, hk]
    · simp [mapSetJs, mapGetJs, h, ih]

/-- `Map.set` never removes a binding. -/
theorem mapGetJs_mapSetJs_isSome (m : List (Js × Js)) (k v j : Js)
    (h : (mapGetJs m j).isSome = true) :
    (mapGetJs (mapSetJs m k v) j).isSome = true := by
  induction m with
  | nil => simp [mapGetJs] at h
  | cons p rest ih =>
    rcases p with ⟨k', v'⟩
    by_cases hpk : k'.primEq k = true
    · have hEq : k' = k := Js.eq_of_primEq hpk
      subst hEq
      by_cases hpj : k'.primEq j = true
      · simp [mapSetJs, mapGetJs, hpk, hpj]
      · simp only [mapGetJs, hpj] at h
        simp only [mapSetJs, if_pos hpk, mapGetJs, hpj]
        simpa using h
    · by_cases hpj : k'.primEq j = true
      · simp [mapSetJs, mapGetJs, hpk, hpj]
      · simp only [mapGetJs, hpj] at h
        simp only [mapSetJs, hpk, mapGetJs, hpj]
        exact ih (by simpa using h)

/-- C3 counterexample: after the map has learned runId "r1" from a chat
event, an agent event for "r1" that lacks a sessionKey is still filed under
the event's stream string ("lifecycle") — the runId→sessionKey map is not
consulted before filing and no "unresolved" bucket exists. -/
theorem runMap_not_consulted_when_filing :
    resolveSessionKey
        (handleEventLearn [] (chatFrame "r1" "agent:kev:telegram:dm:42" 1 "delta" "hi")) "r1"
      = some (.str "agent:kev:telegram:dm:42")
    ∧ (∃ pe a, parseEventFrame 10 agentNoKeyFrame = .ok (some pe)
        ∧ pe.action = some a
        ∧ a.sessionKey = .str "lifecycle"
        ∧ a.sessionKey ≠ .str "agent:kev:telegram:dm:42"
        ∧ a.sessionKey ≠ .str "unresolved") := by
  refine ⟨rfl, ⟨_, _, rfl, rfl, rfl,
    by simp [agentNoKeyFrame, jsOr, Js.getF, Js.truthy, List.lookup],
    by simp [agentNoKeyFrame, jsOr, Js.getF, Js.truthy, List.lookup]⟩⟩

/-- C3 (amended): whenever a chat or agent event carries a (truthy) runId
and sessionKey, the runId→sessionKey map records the mapping and
`resolveSessionKey` afterwards returns that sessionKey; the map never loses
entries (and `disconnect()` does not clear it, so it does not even shrink on
reconnect). But an event lacking sessionKey is not backfilled from the map:
the normalizer files its action under the event's stream string as fallback
sessionKey, with no "unresolved" bucket. -/
theorem runMap_learning_amended :
    (∀ (m : List (Js × Js)) (rid sk : String) (seq : Int) (msg : String),
        rid ≠ "" → sk ≠ "" →
        resolveSessionKey (handleEventLearn m (chatFrame rid sk seq "delta" msg)) rid
          = some (.str sk))
    ∧ (∀ (m : List (Js × Js)) (rid sk : String) (seq : Int),
        rid ≠ "" → sk ≠ "" →
        resolveSessionKey (handleEventLearn m (agentKeyedFrame rid sk seq)) rid
          = some (.str sk))
    ∧ (∀ (m : List (Js × Js)) (f : EventFrame) (k : Js),
        (mapGetJs m k).isSome = true → (mapGetJs (handleEventLearn m f) k).isSome = true)
    ∧ (∀ s : ClientState, (disconnectClient s).runSessionMap = s.runSessionMap)
    ∧ (∃ a, agentEventToAction agentNoKeyFrame.payload = .ok a
        ∧ a.sessionKey = .str "lifecycle") := by
  refine ⟨?_, ?_, ?_, ?_, ⟨_, rfl, rfl⟩⟩
  · intro m rid sk seq msg hrid hsk
    simp only [resolveSessionKey, handleEventLearn, chatFrame, chatPayload, Js.getF,
      Js.truthy, List.lookup]
    simp [hrid, hsk]
    exact mapGetJs_mapSetJs_self m (.str rid) (.str sk) (by simp [Js.primEq])
  · intro m rid sk seq hrid hsk
    simp only [resolveSessionKey, handleEventLearn, agentKeyedFrame, Js.getF,
      Js.truthy, List.lookup]
    simp [hrid, hsk]
    exact mapGetJs_mapSetJs_self m (.str rid) (.str sk) (by simp [Js.primEq])
  · intro m f k h
    simp only [handleEventLearn]
    split <;> split <;>
      first
        | exact h
        | exact mapGetJs_mapSetJs_isSome _ _ _ _ h
        | exact mapGetJs_mapSetJs_isSome _ _ _ _ (mapGetJs_mapSetJs_isSome _ _ _ _ h)
  · intro s
    simp [disconnectClient]
    split <;> rfl

/-- Witness for `runMap_learning_amended` at concrete events. -/
theorem runMap_learning_amended_witness :
    resolveSessionKey
        (handleEventLearn [] (chatFrame "r1" "agent:kev:telegram:dm:7" 1 "delta" "hi")) "r1"
      = some (.str "agent:kev:telegram:dm:7")
    ∧ resolveSessionKey
        (handleEventLearn [] (agentKeyedFrame "r2" "agent:scout:telegram:dm:8" 1)) "r2"
      = some (.str "agent:scout:telegram:dm:8")
    ∧ (mapGetJs (handleEventLearn [(.str "r3", .str "agent:kev:x")]
        (chatFrame "r4" "agent:kev:y" 1 "delta" "hi")) (.str "r3")).isSome = true :=
  ⟨runMap_learning_amended.1 [] "r1" "agent:kev:telegram:dm:7" 1 "hi"
      (by decide) (by decide),
   runMap_learning_amended.2.1 [] "r2" "agent:scout:telegram:dm:8" 1
      (by decide) (by decide),
   runMap_learning_amended.2.2.1 [(.str "r3", .str "agent:kev:x")]
      (chatFrame "r4" "agent:kev:y" 1 "delta" "hi") (.str "r3") rfl⟩

-- C4 ─────────────────────────────────────────────────────────────────────

/-- C4 counterexample: the session ordering exposed to positional layout is
not lexicographic by session key — a session with the lexicographically
larger key but the more recent activity timestamp comes first. -/
theorem session_order_not_by_key :
    (refreshSessionsPipeline 2000 [rawAlpha, rawBeta]).map (fun s => s.key)
      = ["agent:beta:telegram:dm:2", "agent:alpha:telegram:dm:1"]
    ∧ ("agent:alpha:telegram:dm:1" : String) < "agent:beta:telegram:dm:2" := by
  constructor
  · simp [refreshSessionsPipeline, sortSessions, List.mergeSort, parseGatewaySession,
      rawAlpha, rawBeta, agentEmojis, List.lookup, inferParent]
  · rw [String.lt_iff_toList_lt]; decide

/-- C4 (amended): every externally exposed ordering of the session
collection that feeds positional layout sorts by the volatile `updatedAt`
activity timestamp, descending (missing timestamps counting as 0) — not by
session key: the pipeline output is a permutation of its input that is
pairwise ordered by decreasing `updatedAt`. -/
theorem session_order_by_updatedAt (now : Int) (raws : List RawSession) :
    (refreshSessionsPipeline now raws).Perm (raws.map (parseGatewaySession now))
    ∧ (refreshSessionsPipeline now raws).Pairwise
        (fun a b => b.updatedAt.getD 0 ≤ a.updatedAt.getD 0) := by
  constructor
  · exact List.mergeSort_perm _ _
  · have h := @List.sorted_mergeSort SessionInfo
      (fun a b : SessionInfo => decide ((b.updatedAt.getD 0) - (a.updatedAt.getD 0) ≤ 0))
      (fun a b c h1 h2 => by simp only [decide_eq_true_eq] at h1 h2 ⊢; omega)
      (fun a b => by simp only [Bool.or_eq_true, decide_eq_true_eq]; omega)
      (raws.map (parseGatewaySession now))
    refine h.imp ?_
    intro a b hab
    simp only [decide_eq_true_eq] at hab
    omega

-- C5 ─────────────────────────────────────────────────────────────────────

/-- C5 counterexample: a session last updated 30 s ago whose output-token
count is positive but did not advance since the previous observation is
derived as "working" by the code, while the claim's rule ("output tokens
advanced since the previous observation") yields "idle". -/
theorem status_working_without_token_progress :
    (parseGatewaySession 100000 rawSteady).status = "working"
    ∧ coldStartStatusClaimed 100000 70000 false 5 5 = "idle"
    ∧ ("working" : String) ≠ "idle" := by
  refine ⟨rfl, rfl, by decide⟩

/-- C5 (amended): the derived status of a reconciled bulk-listing record is
"error" whenever the abort flag is set, regardless of the other fields;
otherwise "working" when the last update is under ~60 s old and the
listing's raw output-token count is positive (the code never compares
against a previous observation — `parseGatewaySession` has no access to
one); otherwise "idle" under ~5 min; otherwise "stopped". -/
theorem cold_start_status_amended (now : Int) (raw : RawSession) :
    (parseGatewaySession now raw).status
      = coldStartStatusAmended now raw.updatedAt raw.abortedLastRun raw.outputTokens := by
  simp only [parseGatewaySession, coldStartStatusAmended]
  cases raw.outputTokens <;> simp [decide_eq_true_eq]

-- C6 ─────────────────────────────────────────────────────────────────────

/-- C6 counterexample: a `connect()` call while already connected does not
return the most recent handshake result — it returns the synthesized value
`{ type: 'hello-ok', protocol: 3 } as HelloOk`, which carries no server,
snapshot or features and so differs from any genuine handshake result (the
client does not even retain one). -/
theorem connect_noop_returns_stub_not_handshake :
    (connectBegin connectedState).2 = some earlyConnectReturn
    ∧ earlyConnectReturn ≠ fullHandshake
    ∧ earlyConnectReturn.server = none
    ∧ fullHandshake.server.isSome = true := by
  refine ⟨rfl, ?_, rfl, rfl⟩
  intro h
  have := congrArg HelloOk.server h
  simp [earlyConnectReturn, fullHandshake] at this

/-- C6 (amended): a `connect()` call made while a connect attempt is in
flight or the client is already connected is a no-op — the state is
untouched and no second socket is opened — but the value it returns is the
synthesized minimal hello-ok (protocol 3, no server/snapshot/features), not
the existing/most recent handshake result. -/
theorem connect_noop_amended (s : ClientState)
    (h : s.connectingF = true ∨ s.connectedF = true) :
    connectBegin s = (s, some earlyConnectReturn)
    ∧ (connectBegin s).1.socketsOpened = s.socketsOpened
    ∧ earlyConnectReturn =
        { type := "hello-ok", protocol := 3, server := none, snapshot := none,
          features := none } := by
  rcases h with h | h <;> simp [connectBegin, h, earlyConnectReturn]

/-- Witness for `connect_noop_amended` on a connected client. -/
theorem connect_noop_amended_witness :
    connectBegin connectedState = (connectedState, some earlyConnectReturn)
    ∧ (connectBegin connectedState).1.socketsOpened = connectedState.socketsOpened
    ∧ earlyConnectReturn =
        { type := "hello-ok", protocol := 3, server := none, snapshot := none,
          features := none } :=
  connect_noop_amended connectedState (Or.inr rfl)

-- C7 ─────────────────────────────────────────────────────────────────────

/-- C7: the claim (and the spec's required invariant) says the request id
counter and the pending map reset on reconnect and that requests pending
across the old connection are failed by it. The code does neither: after an
unclean close and the reconnect attempt, `requestId` and `pendingRequests`
are untouched; the pending request is only rejected later, by its own 30 s
timeout timer. -/
theorem reconnect_preserves_requestId_and_pending :
    (reconnectFire (onClose pendingState 1006)).1.requestId = 5
    ∧ (reconnectFire (onClose pendingState 1006)).1.pending = [("req-5", "sessions.list")]
    ∧ (timeoutFire (reconnectFire (onClose pendingState 1006)).1 "req-5").2
        = some "Request sessions.list timed out"
    ∧ (timeoutFire (reconnectFire (onClose pendingState 1006)).1 "req-5").1.pending = [] := by
  refine ⟨rfl, rfl, rfl, rfl⟩

-- C8 ─────────────────────────────────────────────────────────────────────

/-- C8 counterexample: in the dispatcher of src/src/main/gateway-client.ts
(`handleRawMessage`), the listener loop runs inside one outer try/catch, so
when the first of two registered listeners throws, the second never receives
the event — delivery is blocked, contradicting the claim. -/
theorem dispatch_outer_catch_stops_at_throwing_listener :
    dispatchOuterCatch firstListenerThrows [0, 1] { event := "chat", payload := .undefined } = [0]
    ∧ ([0] : List Nat) ≠ [0, 1] := by
  exact ⟨rfl, by decide⟩

/-- C8 (amended): the part_001 protocol-v3 client's `handleEvent` dispatches
every unsolicited event to all registered listeners in registration order,
isolating listener faults with a per-listener try/catch; but the dispatcher
in src/src/main/gateway-client.ts (`handleRawMessage`) has only an outer
catch: a throwing listener stops delivery to the remaining listeners (the
dispatcher itself survives and returns). -/
theorem dispatch_amended :
    (∀ (beh : Nat → EventFrame → Except String Unit) (ls : List Nat) (e : EventFrame),
        dispatchIsolated beh ls e = ls)
    ∧ dispatchOuterCatch firstListenerThrows [0, 1] lifecycleNoDataFrame = [0] := by
  constructor
  · intro beh ls e
    induction ls with
    | nil => rfl
    | cons l rest ih => cases h : beh l e <;> simp [dispatchIsolated, h, ih]
  · rfl

-- C10 ────────────────────────────────────────────────────────────────────

/-- C10: a `request()` call made while the client has no WebSocket or the
socket is not open — including after `disconnect()` — rejects with "Not
connected" and leaves the client state unchanged: no request id is consumed,
no pending entry is created, nothing is sent. This holds for the part_001
protocol-v3 client (guard `!this.ws || readyState !== OPEN`) and for the
src/src/main/gateway-client.ts client (guard `!this.ws || !this.connected`). -/
theorem request_rejects_when_not_connected :
    (∀ (s : ClientState) (method : String), s.ws ≠ some .openWS →
        requestBegin s method = (s, .error "Not connected"))
    ∧ (∀ (s : ClientState) (method : String),
        requestBegin (disconnectClient s) method = (disconnectClient s, .error "Not connected"))
    ∧ (∀ (s : MainClientState) (method : String), s.ws = none ∨ s.connected = false →
        requestBeginMain s method = (s, .error "Not connected")) := by
  refine ⟨?_, ?_, ?_⟩
  · intro s method h
    match hw : s.ws with
    | none => simp [requestBegin, hw]
    | some .connectingWS => simp [requestBegin, hw]
    | some .openWS => exact absurd hw h
    | some .closingWS => simp [requestBegin, hw]
    | some .closedWS => simp [requestBegin, hw]
  · intro s method
    simp only [disconnectClient]
    split <;> rfl
  · intro s method h
    rcases h with h | h <;> simp [requestBeginMain, h]

/-- Witness for `request_rejects_when_not_connected` on concrete
disconnected clients. -/
theorem request_rejects_when_not_connected_witness :
    requestBegin (disconnectClient connectedState) "sessions.list"
        = (disconnectClient connectedState, .error "Not connected")
    ∧ requestBeginMain
        { ws := none, connected := false, requestId := 3, pending := [], sent := [] }
        "status"
        = ({ ws := none, connected := false, requestId := 3, pending := [], sent := [] },
            .error "Not connected") :=
  ⟨request_rejects_when_not_connected.2.1 connectedState "sessions.list",
   request_rejects_when_not_connected.2.2
      { ws := none, connected := false, requestId := 3, pending := [], sent := [] }
      "status" (Or.inl rfl)⟩

-- C9 ─────────────────────────────────────────────────────────────────────

/-- The budget pass always lands within budget. -/
theorem totalChars_dropWhileOver_le (b : Nat) (l : List ExecChunk) :
    totalChars (dropWhileOver b l) ≤ b := by
  induction l with
  | nil => simp [dropWhileOver, totalChars]
  | cons c rest ih =>
    by_cases h : totalChars (c :: rest) ≤ b
    · simp [dropWhileOver, h]
    · simpa [dropWhileOver, h] using ih

/-- A list already within budget is untouched by the budget pass. -/
theorem dropWhileOver_of_le (b : Nat) (l : List ExecChunk) (h : totalChars l ≤ b) :
    dropWhileOver b l = l := by
  cases l with
  | nil => rfl
  | cons c rest => simp [dropWhileOver, h]

/-- The budget pass only removes a prefix: the result is a suffix. -/
theorem dropWhileOver_suffix (b : Nat) (l : List ExecChunk) :
    dropWhileOver b l <:+ l := by
  induction l with
  | nil => simp [dropWhileOver]
  | cons c rest ih =>
    by_cases h : totalChars (c :: rest) ≤ b
    · simp [dropWhileOver, h]
    · simp only [dropWhileOver, if_neg h]
      exact ih.trans (List.suffix_cons c rest)

/-- Character total of a list of capped chunks. -/
theorem totalChars_le_of_bounded (cap : Nat) (l : List ExecChunk)
    (h : ∀ c ∈ l, c.text.length ≤ cap) : totalChars l ≤ l.length * cap := by
  induction l with
  | nil => simp [totalChars]
  | cons c rest ih =>
    have h1 := h c (List.mem_cons_self c rest)
    have h2 := ih (fun x hx => h x (List.mem_cons_of_mem c hx))
    simp only [totalChars, List.map_cons, List.sum_cons, List.length_cons] at h2 ⊢
    rw [Nat.succ_mul]
    omega

/-- The kept text never exceeds the per-chunk cap. -/
theorem truncateChunk_text_le (cfg : ExecConfig) (s : List Char) :
    (truncateChunk cfg s).text.length ≤ cfg.maxChunkChars := by
  by_cases h : s.length > cfg.maxChunkChars
  · simp [truncateChunk, h]
  · simp only [truncateChunk, if_neg h]
    omega

/-- The truncation mark is set exactly when the tail was cut. -/
theorem truncateChunk_truncated_iff (cfg : ExecConfig) (s : List Char) :
    (truncateChunk cfg s).truncated = true ↔ cfg.maxChunkChars < s.length := by
  by_cases h : s.length > cfg.maxChunkChars
  · simp [truncateChunk, h]
  · simp [truncateChunk, h]

/-- When the window of capped chunks fits the budget, one ingest step is a
pure sliding window: append the truncated chunk and drop down to the count
cap. -/
theorem addChunk_window (cfg : ExecConfig) (p : ExecProc) (raw : List Char)
    (hbudget : cfg.maxChunks * cfg.maxChunkChars ≤ cfg.maxTotalChars)
    (hlen : ∀ c ∈ p.chunks, c.text.length ≤ cfg.maxChunkChars) :
    (addChunk cfg p raw).chunks
      = (p.chunks ++ [truncateChunk cfg raw]).drop (p.chunks.length + 1 - cfg.maxChunks) := by
  have hall : ∀ c ∈ (p.chunks ++ [truncateChunk cfg raw]).drop
      (p.chunks.length + 1 - cfg.maxChunks), c.text.length ≤ cfg.maxChunkChars := by
    intro c hc
    rcases List.mem_append.mp (List.mem_of_mem_drop hc) with h | h
    · exact hlen c h
    · rw [List.mem_singleton.mp h]
      exact truncateChunk_text_le cfg raw
  have hlen2 : ((p.chunks ++ [truncateChunk cfg raw]).drop
      (p.chunks.length + 1 - cfg.maxChunks)).length ≤ cfg.maxChunks := by
    simp only [List.length_drop, List.length_append, List.length_cons, List.length_nil]
    omega
  have htot : totalChars ((p.chunks ++ [truncateChunk cfg raw]).drop
      (p.chunks.length + 1 - cfg.maxChunks)) ≤ cfg.maxTotalChars :=
    le_trans (le_trans (totalChars_le_of_bounded _ _ hall)
      (Nat.mul_le_mul_right _ hlen2)) hbudget
  have happlen : (p.chunks ++ [truncateChunk cfg raw]).length = p.chunks.length + 1 := by
    simp
  simp only [addChunk]
  by_cases h : (p.chunks ++ [truncateChunk cfg raw]).length > cfg.maxChunks
  · rw [if_pos h, happlen, dropWhileOver_of_le _ _ htot]
  · rw [if_neg h]
    rw [happlen] at h
    have h0 : p.chunks.length + 1 - cfg.maxChunks = 0 := by omega
    rw [h0, List.drop_zero] at htot ⊢
    exact dropWhileOver_of_le _ _ htot

/-- Sliding a window already at the cap by one more element. -/
theorem drop_window_append {α : Type} (W : List α) (x : α) (M : Nat) (hM : 0 < M) :
    (W.drop (W.length - M) ++ [x]).drop ((W.drop (W.length - M)).length + 1 - M)
      = (W ++ [x]).drop (W.length + 1 - M) := by
  by_cases h : W.length + 1 ≤ M
  · have h1 : W.length - M = 0 := by omega
    have h2 : W.length + 1 - M = 0 := by omega
    simp [h1, h2]
  · have hMn : M ≤ W.length := by omega
    have hlen : (W.drop (W.length - M)).length = M := by
      simp only [List.length_drop]
      omega
    rw [hlen]
    have h1 : M + 1 - M = 1 := by omega
    rw [h1]
    rw [List.drop_append_of_le_length (by rw [hlen]; omega)]
    rw [List.drop_drop]
    rw [List.drop_append_of_le_length (by omega)]
    congr 2
    omega

/-- Feeding from empty keeps exactly the newest `maxChunks` truncated
chunks, provided they always fit the character budget. -/
theorem feedChunks_window (cfg : ExecConfig) (hM : 0 < cfg.maxChunks)
    (hbudget : cfg.maxChunks * cfg.maxChunkChars ≤ cfg.maxTotalChars)
    (raws : List (List Char)) :
    (feedChunks cfg emptyProc raws).chunks
      = (raws.map (truncateChunk cfg)).drop (raws.length - cfg.maxChunks) := by
  induction raws using List.reverseRecOn with
  | nil => simp [feedChunks, emptyProc]
  | append_singleton rest r ih =>
    have hstep : feedChunks cfg emptyProc (rest ++ [r])
        = addChunk cfg (feedChunks cfg emptyProc rest) r := by
      simp [feedChunks, List.foldl_append]
    have hlen : ∀ c ∈ (feedChunks cfg emptyProc rest).chunks,
        c.text.length ≤ cfg.maxChunkChars := by
      intro c hc
      rw [ih] at hc
      rcases List.mem_map.mp (List.mem_of_mem_drop hc) with ⟨x, _, rfl⟩
      exact truncateChunk_text_le cfg x
    rw [hstep, addChunk_window cfg _ r hbudget hlen, ih]
    have := drop_window_append (rest.map (truncateChunk cfg)) (truncateChunk cfg r)
      cfg.maxChunks hM
    simp only [List.length_map] at this
    rw [this]
    simp

/-- The budget pass result is never longer than its input. -/
theorem length_dropWhileOver_le (b : Nat) (l : List ExecChunk) :
    (dropWhileOver b l).length ≤ l.length :=
  (dropWhileOver_suffix b l).sublist.length_le

/-- Every ingest accounts for its chunk: retained count plus observable
dropped count grows by exactly one. -/
theorem addChunk_dropped (cfg : ExecConfig) (p : ExecProc) (raw : List Char) :
    (addChunk cfg p raw).droppedChunks + (addChunk cfg p raw).chunks.length
      = p.droppedChunks + p.chunks.length + 1 := by
  simp only [addChunk]
  have happlen : (p.chunks ++ [truncateChunk cfg raw]).length = p.chunks.length + 1 := by
    simp
  by_cases h : (p.chunks ++ [truncateChunk cfg raw]).length > cfg.maxChunks
  · rw [if_pos h]
    have h1 := length_dropWhileOver_le cfg.maxTotalChars
      ((p.chunks ++ [truncateChunk cfg raw]).drop
        ((p.chunks ++ [truncateChunk cfg raw]).length - cfg.maxChunks))
    have h2 : ((p.chunks ++ [truncateChunk cfg raw]).drop
        ((p.chunks ++ [truncateChunk cfg raw]).length - cfg.maxChunks)).length
        ≤ (p.chunks ++ [truncateChunk cfg raw]).length := by
      simp only [List.length_drop]
      omega
    omega
  · rw [if_neg h]
    have h1 := length_dropWhileOver_le cfg.maxTotalChars
      (p.chunks ++ [truncateChunk cfg raw])
    omega

/-- Accounting across a whole feed. -/
theorem feedChunks_dropped (cfg : ExecConfig) (raws : List (List Char)) :
    ∀ p : ExecProc,
      (feedChunks cfg p raws).droppedChunks + (feedChunks cfg p raws).chunks.length
        = p.droppedChunks + p.chunks.length + raws.length := by
  induction raws with
  | nil => intro p; simp [feedChunks]
  | cons r rest ih =>
    intro p
    have hstep : feedChunks cfg p (r :: rest) = feedChunks cfg (addChunk cfg p r) rest := by
      simp [feedChunks]
    rw [hstep]
    have h1 := ih (addChunk cfg p r)
    have h2 := addChunk_dropped cfg p r
    simp only [List.length_cons]
    omega

/-- C9 (spec-modelled — the streamed-chunk retention logic is not under
src/; it is modelled from §4.6 of the spec): feeding N chunks with chunk cap
M < N and a budget that covers M capped chunks retains exactly the newest M
chunks, each truncated to the per-chunk character cap with its truncation
flag set exactly when the tail was cut; the aggregate retained length never
exceeds the budget; and every drop is observable — dropped plus retained
counts add up to N. -/
theorem exec_chunk_retention (cfg : ExecConfig) (raws : List (List Char))
    (hM : 0 < cfg.maxChunks)
    (hbudget : cfg.maxChunks * cfg.maxChunkChars ≤ cfg.maxTotalChars)
    (hN : cfg.maxChunks < raws.length) :
    (feedChunks cfg emptyProc raws).chunks
        = (raws.map (truncateChunk cfg)).drop (raws.length - cfg.maxChunks)
    ∧ (feedChunks cfg emptyProc raws).chunks.length = cfg.maxChunks
    ∧ totalChars (feedChunks cfg emptyProc raws).chunks ≤ cfg.maxTotalChars
    ∧ (∀ c ∈ (feedChunks cfg emptyProc raws).chunks, c.text.length ≤ cfg.maxChunkChars)
    ∧ (∀ s : List Char, (truncateChunk cfg s).truncated = true ↔ cfg.maxChunkChars < s.length)
    ∧ (feedChunks cfg emptyProc raws).droppedChunks
        + (feedChunks cfg emptyProc raws).chunks.length = raws.length := by
  have hwin := feedChunks_window cfg hM hbudget raws
  have hmem : ∀ c ∈ (feedChunks cfg emptyProc raws).chunks,
      c.text.length ≤ cfg.maxChunkChars := by
    intro c hc
    rw [hwin] at hc
    rcases List.mem_map.mp (List.mem_of_mem_drop hc) with ⟨x, _, rfl⟩
    exact truncateChunk_text_le cfg x
  have hcount : (feedChunks cfg emptyProc raws).chunks.length = cfg.maxChunks := by
    rw [hwin]
    simp only [List.length_drop, List.length_map]
    omega
  refine ⟨hwin, hcount, ?_, hmem, truncateChunk_truncated_iff cfg, ?_⟩
  · calc totalChars (feedChunks cfg emptyProc raws).chunks
        ≤ (feedChunks cfg emptyProc raws).chunks.length * cfg.maxChunkChars :=
          totalChars_le_of_bounded _ _ hmem
      _ = cfg.maxChunks * cfg.maxChunkChars := by rw [hcount]
      _ ≤ cfg.maxTotalChars := hbudget
  · have h := feedChunks_dropped cfg raws emptyProc
    simpa [emptyProc] using h

/-- Witness for `exec_chunk_retention` on a concrete feed of four chunks
through a two-chunk window. -/
theorem exec_chunk_retention_witness :
    0 < execCfgW.maxChunks
    ∧ execCfgW.maxChunks * execCfgW.maxChunkChars ≤ execCfgW.maxTotalChars
    ∧ execCfgW.maxChunks < execRawsW.length
    ∧ ((feedChunks execCfgW emptyProc execRawsW).chunks
          = (execRawsW.map (truncateChunk execCfgW)).drop
              (execRawsW.length - execCfgW.maxChunks)
      ∧ (feedChunks execCfgW emptyProc execRawsW).chunks.length = execCfgW.maxChunks
      ∧ totalChars (feedChunks execCfgW emptyProc execRawsW).chunks ≤ execCfgW.maxTotalChars
      ∧ (∀ c ∈ (feedChunks execCfgW emptyProc execRawsW).chunks,
            c.text.length ≤ execCfgW.maxChunkChars)
      ∧ (∀ s : List Char,
            (truncateChunk execCfgW s).truncated = true ↔ execCfgW.maxChunkChars < s.length)
      ∧ (feedChunks execCfgW emptyProc execRawsW).droppedChunks
          + (feedChunks execCfgW emptyProc execRawsW).chunks.length = execRawsW.length) :=
  ⟨by decide, by decide, by decide,
   exec_chunk_retention execCfgW execRawsW (by decide) (by decide) (by decide)⟩

end Reef
